import Mathlib

/-!
Verification of the coordinate-transformation and entity-positioning core of the
rb26_survey repository.

The development shallowly embeds the relevant Python functions:

* `Map1`: the two-point pixel/geographic calibration of `map_1.py`
  (`GeoMapper.is_ready`, `px_to_ll`, `ll_to_px`, `set_points`).  The pixel and
  geographic coordinates are embedded as rationals; fallible operations
  (a conversion raising `RuntimeError("GeoMapper not calibrated.")` or a
  `ZeroDivisionError`) return `Except GeoErr`.
* `Map2`: the centered grid editor of `map_2.py` (clamp, grid snap, the
  entity base/offset/final model, and the origin-relative meter/degree
  conversions).
* `Map4`: the math engine of `map_4.py` (`get_meters_per_deg`,
  `local_xy_to_latlon`, `calculate_forward_geodesic`).
* `Map6`: the math engine of `map_6.py` (fixed-origin conversions and
  `calculate_projection` with its west-referenced bearing).

Real-valued trigonometric code is embedded over `ℝ`; Python's `x / y` raising
`ZeroDivisionError` when `y = 0` is embedded as an `Option`/`Except` guard, and
Python's banker-rounding `round` as `pyround`.
-/

namespace RB26

namespace Map1

/-- Error kinds raised by `GeoMapper` conversions in `map_1.py`:
`RuntimeError("GeoMapper not calibrated.")` and Python's `ZeroDivisionError`. -/
inductive GeoErr where
  | notCalibrated
  | zeroDivision
deriving DecidableEq, Repr

/-- `CalPoint` dataclass of `map_1.py`: a pixel position paired with a
geographic position. -/
structure CalPoint where
  px : ℚ
  py : ℚ
  lat : ℚ
  lon : ℚ
deriving DecidableEq, Repr

/-- The mutable state of `GeoMapper`: two optional calibration points. -/
structure GeoMapper where
  p1 : Option CalPoint
  p2 : Option CalPoint
deriving DecidableEq, Repr

/-- `GeoMapper.is_ready`: both points set and the two points differ in
pixel x, pixel y, longitude and latitude. -/
def is_ready (g : GeoMapper) : Bool :=
  match g.p1, g.p2 with
  | some p1, some p2 =>
      decide (p2.px ≠ p1.px) && decide (p2.py ≠ p1.py) &&
      decide (p2.lon ≠ p1.lon) && decide (p2.lat ≠ p1.lat)
  | _, _ => false

/-- Python division: raises `ZeroDivisionError` on a zero divisor. -/
def pdiv (a b : ℚ) : Except GeoErr ℚ :=
  if b = 0 then .error .zeroDivision else .ok (a / b)

/-- `GeoMapper.px_to_ll`: raises `notCalibrated` when not ready, otherwise
returns `(lat, lon)` by per-axis linear interpolation. -/
def px_to_ll (g : GeoMapper) (px py : ℚ) : Except GeoErr (ℚ × ℚ) :=
  if is_ready g then
    match g.p1, g.p2 with
    | some p1, some p2 => do
        let dlon ← pdiv ((px - p1.px) * (p2.lon - p1.lon)) (p2.px - p1.px)
        let dlat ← pdiv ((py - p1.py) * (p2.lat - p1.lat)) (p2.py - p1.py)
        .ok (p1.lat + dlat, p1.lon + dlon)
    | _, _ => .error .notCalibrated
  else .error .notCalibrated

/-- `GeoMapper.ll_to_px`: raises `notCalibrated` when not ready, otherwise
returns `(px, py)` by per-axis linear interpolation. -/
def ll_to_px (g : GeoMapper) (lat lon : ℚ) : Except GeoErr (ℚ × ℚ) :=
  if is_ready g then
    match g.p1, g.p2 with
    | some p1, some p2 => do
        let dpx ← pdiv ((lon - p1.lon) * (p2.px - p1.px)) (p2.lon - p1.lon)
        let dpy ← pdiv ((lat - p1.lat) * (p2.py - p1.py)) (p2.lat - p1.lat)
        .ok (p1.px + dpx, p1.py + dpy)
    | _, _ => .error .notCalibrated
  else .error .notCalibrated

/-- `GeoMapper.set_points`: `self.p1, self.p2 = p1, p2` — stores both points
unconditionally, with no validation. -/
def set_points (g : GeoMapper) (q1 q2 : CalPoint) : GeoMapper :=
  { g with p1 := some q1, p2 := some q2 }

lemma is_ready_iff (g : GeoMapper) :
    is_ready g = true ↔ ∃ q1 q2, g.p1 = some q1 ∧ g.p2 = some q2
      ∧ q1.px ≠ q2.px ∧ q1.py ≠ q2.py ∧ q1.lat ≠ q2.lat ∧ q1.lon ≠ q2.lon := by
  obtain ⟨p1, p2⟩ := g
  cases p1 <;> cases p2 <;>
    simp [is_ready, ne_comm, and_assoc, and_left_comm, and_comm]

lemma px_to_ll_ready (p1 p2 : CalPoint) (hpx : p2.px ≠ p1.px) (hpy : p2.py ≠ p1.py)
    (hlon : p2.lon ≠ p1.lon) (hlat : p2.lat ≠ p1.lat) (px py : ℚ) :
    px_to_ll ⟨some p1, some p2⟩ px py =
      .ok (p1.lat + (py - p1.py) * (p2.lat - p1.lat) / (p2.py - p1.py),
           p1.lon + (px - p1.px) * (p2.lon - p1.lon) / (p2.px - p1.px)) := by
  have h1 : p2.px - p1.px ≠ 0 := sub_ne_zero_of_ne hpx
  have h2 : p2.py - p1.py ≠ 0 := sub_ne_zero_of_ne hpy
  simp [px_to_ll, is_ready, pdiv, hpx, hpy, hlon, hlat, h1, h2]
  rfl

lemma ll_to_px_ready (p1 p2 : CalPoint) (hpx : p2.px ≠ p1.px) (hpy : p2.py ≠ p1.py)
    (hlon : p2.lon ≠ p1.lon) (hlat : p2.lat ≠ p1.lat) (lat lon : ℚ) :
    ll_to_px ⟨some p1, some p2⟩ lat lon =
      .ok (p1.px + (lon - p1.lon) * (p2.px - p1.px) / (p2.lon - p1.lon),
           p1.py + (lat - p1.lat) * (p2.py - p1.py) / (p2.lat - p1.lat)) := by
  have h1 : p2.lon - p1.lon ≠ 0 := sub_ne_zero_of_ne hlon
  have h2 : p2.lat - p1.lat ≠ 0 := sub_ne_zero_of_ne hlat
  simp [ll_to_px, is_ready, pdiv, hpx, hpy, hlon, hlat, h1, h2]
  rfl

lemma not_ready_px (g : GeoMapper) (px py : ℚ) (h : is_ready g = false) :
    px_to_ll g px py = .error .notCalibrated := by
  simp [px_to_ll, h]

lemma not_ready_ll (g : GeoMapper) (lat lon : ℚ) (h : is_ready g = false) :
    ll_to_px g lat lon = .error .notCalibrated := by
  simp [ll_to_px, h]

/-- C3: `px_to_ll` and `ll_to_px` fail with the not-calibrated error exactly when
the mapper is not ready; readiness means both points are set and their pixel x,
pixel y, latitude and longitude each differ; when ready, both conversions return
a result without error. -/
theorem conversion_error_iff_not_ready (g : GeoMapper) (px py lat lon : ℚ) :
    (px_to_ll g px py = .error .notCalibrated ↔ is_ready g = false)
    ∧ (ll_to_px g lat lon = .error .notCalibrated ↔ is_ready g = false)
    ∧ (is_ready g = true ↔ ∃ q1 q2, g.p1 = some q1 ∧ g.p2 = some q2
        ∧ q1.px ≠ q2.px ∧ q1.py ≠ q2.py ∧ q1.lat ≠ q2.lat ∧ q1.lon ≠ q2.lon)
    ∧ (is_ready g = true →
        (∃ r, px_to_ll g px py = .ok r) ∧ (∃ r, ll_to_px g lat lon = .ok r)) := by
  refine ⟨?_, ?_, is_ready_iff g, ?_⟩
  · cases hr : is_ready g
    · simp [not_ready_px g px py hr]
    · obtain ⟨q1, q2, h1, h2, h3, h4, h5, h6⟩ := (is_ready_iff g).mp hr
      obtain ⟨p1, p2⟩ := g
      cases h1; cases h2
      rw [px_to_ll_ready q1 q2 (Ne.symm h3) (Ne.symm h4) (Ne.symm h6) (Ne.symm h5)]
      simp
  · cases hr : is_ready g
    · simp [not_ready_ll g lat lon hr]
    · obtain ⟨q1, q2, h1, h2, h3, h4, h5, h6⟩ := (is_ready_iff g).mp hr
      obtain ⟨p1, p2⟩ := g
      cases h1; cases h2
      rw [ll_to_px_ready q1 q2 (Ne.symm h3) (Ne.symm h4) (Ne.symm h6) (Ne.symm h5)]
      simp
  · intro hr
    obtain ⟨q1, q2, h1, h2, h3, h4, h5, h6⟩ := (is_ready_iff g).mp hr
    obtain ⟨p1, p2⟩ := g
    cases h1; cases h2
    rw [px_to_ll_ready q1 q2 (Ne.symm h3) (Ne.symm h4) (Ne.symm h6) (Ne.symm h5)]
    rw [ll_to_px_ready q1 q2 (Ne.symm h3) (Ne.symm h4) (Ne.symm h6) (Ne.symm h5)]
    exact ⟨⟨_, rfl⟩, ⟨_, rfl⟩⟩

/-- C3 witness: a concrete ready mapper on which both conversions succeed. -/
theorem conversion_error_iff_not_ready_witness :
    is_ready ⟨some ⟨0, 0, 0, 0⟩, some ⟨1, 1, 1, 1⟩⟩ = true
    ∧ ((∃ r, px_to_ll ⟨some ⟨0, 0, 0, 0⟩, some ⟨1, 1, 1, 1⟩⟩ 2 3 = .ok r)
       ∧ (∃ r, ll_to_px ⟨some ⟨0, 0, 0, 0⟩, some ⟨1, 1, 1, 1⟩⟩ 4 5 = .ok r)) :=
  ⟨by decide,
   (conversion_error_iff_not_ready ⟨some ⟨0, 0, 0, 0⟩, some ⟨1, 1, 1, 1⟩⟩ 2 3 4 5).2.2.2
     (by decide)⟩

/-- C7: for a ready mapper, converting a pixel to lat/lon and back recovers the
pixel to within 1e-6 in each coordinate (in fact exactly). -/
theorem calibration_roundtrip (g : GeoMapper) (px py : ℚ) (h : is_ready g = true) :
    ∃ lat lon px2 py2, px_to_ll g px py = .ok (lat, lon)
      ∧ ll_to_px g lat lon = .ok (px2, py2)
      ∧ |px2 - px| ≤ 1 / 1000000 ∧ |py2 - py| ≤ 1 / 1000000 := by
  obtain ⟨q1, q2, h1, h2, h3, h4, h5, h6⟩ := (is_ready_iff g).mp h
  obtain ⟨p1, p2⟩ := g
  cases h1; cases h2
  have hpx : q2.px - q1.px ≠ 0 := sub_ne_zero_of_ne (Ne.symm h3)
  have hpy : q2.py - q1.py ≠ 0 := sub_ne_zero_of_ne (Ne.symm h4)
  have hlat : q2.lat - q1.lat ≠ 0 := sub_ne_zero_of_ne (Ne.symm h5)
  have hlon : q2.lon - q1.lon ≠ 0 := sub_ne_zero_of_ne (Ne.symm h6)
  refine ⟨_, _, px, py,
    px_to_ll_ready q1 q2 (Ne.symm h3) (Ne.symm h4) (Ne.symm h6) (Ne.symm h5) px py, ?_, ?_, ?_⟩
  · rw [ll_to_px_ready q1 q2 (Ne.symm h3) (Ne.symm h4) (Ne.symm h6) (Ne.symm h5)]
    congr 2
    · field_simp
      ring
    · field_simp
      ring
  · simp
  · simp

/-- C7 witness: the round trip on a concrete ready mapper and pixel. -/
theorem calibration_roundtrip_witness :
    is_ready ⟨some ⟨0, 0, 0, 0⟩, some ⟨1, 1, 1, 1⟩⟩ = true
    ∧ ∃ lat lon px2 py2,
        px_to_ll ⟨some ⟨0, 0, 0, 0⟩, some ⟨1, 1, 1, 1⟩⟩ 2 3 = .ok (lat, lon)
        ∧ ll_to_px ⟨some ⟨0, 0, 0, 0⟩, some ⟨1, 1, 1, 1⟩⟩ lat lon = .ok (px2, py2)
        ∧ |px2 - 2| ≤ 1 / 1000000 ∧ |py2 - 3| ≤ 1 / 1000000 :=
  ⟨by decide, calibration_roundtrip ⟨some ⟨0, 0, 0, 0⟩, some ⟨1, 1, 1, 1⟩⟩ 2 3 (by decide)⟩

/-- C9 counterexample: `set_points` stores a degenerate pair (equal pixel x)
silently — no error is signalled at set time — and the failure only surfaces on
the first conversion, as a not-calibrated error. -/
theorem set_points_stores_degenerate_silently :
    (set_points ⟨none, none⟩ ⟨0, 0, 0, 0⟩ ⟨0, 1, 1, 1⟩).p1 = some ⟨0, 0, 0, 0⟩
    ∧ (set_points ⟨none, none⟩ ⟨0, 0, 0, 0⟩ ⟨0, 1, 1, 1⟩).p2 = some ⟨0, 1, 1, 1⟩
    ∧ px_to_ll (set_points ⟨none, none⟩ ⟨0, 0, 0, 0⟩ ⟨0, 1, 1, 1⟩) 0 0
        = .error .notCalibrated := by
  exact ⟨rfl, rfl, rfl⟩

/-- C9 amended: `set_points` never validates — it stores any pair, degenerate or
not, exactly as given; when the stored pair coincides in any of pixel x, pixel
y, latitude or longitude, degeneracy is detected only at first use, where both
conversions fail with the not-calibrated error. -/
theorem set_points_defers_validation (g : GeoMapper) (q1 q2 : CalPoint)
    (hdeg : q1.px = q2.px ∨ q1.py = q2.py ∨ q1.lat = q2.lat ∨ q1.lon = q2.lon) :
    (set_points g q1 q2).p1 = some q1 ∧ (set_points g q1 q2).p2 = some q2
    ∧ ∀ px py lat lon, px_to_ll (set_points g q1 q2) px py = .error .notCalibrated
        ∧ ll_to_px (set_points g q1 q2) lat lon = .error .notCalibrated := by
  refine ⟨rfl, rfl, fun px py lat lon => ?_⟩
  have hnr : is_ready (set_points g q1 q2) = false := by
    rcases hdeg with h | h | h | h <;> simp [set_points, is_ready, h]
  exact ⟨not_ready_px _ px py hnr, not_ready_ll _ lat lon hnr⟩

/-- C9 amended witness: a concrete degenerate pair is stored as given and both
conversions then fail. -/
theorem set_points_defers_validation_witness :
    ((0 : ℚ) = 0 ∨ (0 : ℚ) = 1 ∨ (0 : ℚ) = 1 ∨ (0 : ℚ) = 1)
    ∧ ((set_points ⟨none, none⟩ ⟨0, 0, 0, 0⟩ ⟨0, 1, 1, 1⟩).p1 = some ⟨0, 0, 0, 0⟩
       ∧ (set_points ⟨none, none⟩ ⟨0, 0, 0, 0⟩ ⟨0, 1, 1, 1⟩).p2 = some ⟨0, 1, 1, 1⟩
       ∧ ∀ px py lat lon,
           px_to_ll (set_points ⟨none, none⟩ ⟨0, 0, 0, 0⟩ ⟨0, 1, 1, 1⟩) px py
             = .error .notCalibrated
           ∧ ll_to_px (set_points ⟨none, none⟩ ⟨0, 0, 0, 0⟩ ⟨0, 1, 1, 1⟩) lat lon
             = .error .notCalibrated) :=
  ⟨Or.inl rfl,
   set_points_defers_validation ⟨none, none⟩ ⟨0, 0, 0, 0⟩ ⟨0, 1, 1, 1⟩ (Or.inl rfl)⟩

/-- C10: per-axis independence of a ready calibration — the latitude returned by
`px_to_ll` depends only on the pixel y, the longitude only on the pixel x, and
dually the pixel x returned by `ll_to_px` depends only on the longitude and the
pixel y only on the latitude. -/
theorem per_axis_independence (g : GeoMapper) (h : is_ready g = true)
    (pxa pxb pya pyb lata latb lona lonb : ℚ) :
    (px_to_ll g pxa pya).map Prod.fst = (px_to_ll g pxb pya).map Prod.fst
    ∧ (px_to_ll g pxa pya).map Prod.snd = (px_to_ll g pxa pyb).map Prod.snd
    ∧ (ll_to_px g lata lona).map Prod.fst = (ll_to_px g latb lona).map Prod.fst
    ∧ (ll_to_px g lata lona).map Prod.snd = (ll_to_px g lata lonb).map Prod.snd := by
  obtain ⟨q1, q2, h1, h2, h3, h4, h5, h6⟩ := (is_ready_iff g).mp h
  obtain ⟨p1, p2⟩ := g
  cases h1; cases h2
  rw [px_to_ll_ready q1 q2 (Ne.symm h3) (Ne.symm h4) (Ne.symm h6) (Ne.symm h5) pxa pya,
      px_to_ll_ready q1 q2 (Ne.symm h3) (Ne.symm h4) (Ne.symm h6) (Ne.symm h5) pxb pya,
      px_to_ll_ready q1 q2 (Ne.symm h3) (Ne.symm h4) (Ne.symm h6) (Ne.symm h5) pxa pyb,
      ll_to_px_ready q1 q2 (Ne.symm h3) (Ne.symm h4) (Ne.symm h6) (Ne.symm h5) lata lona,
      ll_to_px_ready q1 q2 (Ne.symm h3) (Ne.symm h4) (Ne.symm h6) (Ne.symm h5) latb lona,
      ll_to_px_ready q1 q2 (Ne.symm h3) (Ne.symm h4) (Ne.symm h6) (Ne.symm h5) lata lonb]
  simp [Except.map]

/-- C10 witness: per-axis independence at a concrete ready mapper and inputs. -/
theorem per_axis_independence_witness :
    is_ready ⟨some ⟨0, 0, 0, 0⟩, some ⟨1, 1, 1, 1⟩⟩ = true
    ∧ ((px_to_ll ⟨some ⟨0, 0, 0, 0⟩, some ⟨1, 1, 1, 1⟩⟩ 2 5).map Prod.fst
         = (px_to_ll ⟨some ⟨0, 0, 0, 0⟩, some ⟨1, 1, 1, 1⟩⟩ 3 5).map Prod.fst
       ∧ (px_to_ll ⟨some ⟨0, 0, 0, 0⟩, some ⟨1, 1, 1, 1⟩⟩ 2 5).map Prod.snd
         = (px_to_ll ⟨some ⟨0, 0, 0, 0⟩, some ⟨1, 1, 1, 1⟩⟩ 2 6).map Prod.snd
       ∧ (ll_to_px ⟨some ⟨0, 0, 0, 0⟩, some ⟨1, 1, 1, 1⟩⟩ 7 9).map Prod.fst
         = (ll_to_px ⟨some ⟨0, 0, 0, 0⟩, some ⟨1, 1, 1, 1⟩⟩ 8 9).map Prod.fst
       ∧ (ll_to_px ⟨some ⟨0, 0, 0, 0⟩, some ⟨1, 1, 1, 1⟩⟩ 7 9).map Prod.snd
         = (ll_to_px ⟨some ⟨0, 0, 0, 0⟩, some ⟨1, 1, 1, 1⟩⟩ 7 10).map Prod.snd) :=
  ⟨by decide,
   per_axis_independence ⟨some ⟨0, 0, 0, 0⟩, some ⟨1, 1, 1, 1⟩⟩ (by decide) 2 3 5 6 7 8 9 10⟩

end Map1

namespace Map2

/-- Python's `round`: round half to even (banker's rounding). -/
noncomputable def pyround (x : ℝ) : ℤ :=
  if Int.fract x = 1 / 2 then (if Even ⌊x⌋ then ⌊x⌋ else ⌊x⌋ + 1) else round x

lemma pyround_intCast (n : ℤ) : pyround ((n : ℝ)) = n := by
  have h : Int.fract ((n : ℝ)) ≠ 1 / 2 := by
    rw [Int.fract_intCast]
    norm_num
  simp [pyround, h, round_intCast]

lemma abs_pyround_sub_le (x : ℝ) : |(pyround x : ℝ) - x| ≤ 1 / 2 := by
  by_cases h : Int.fract x = 1 / 2
  · have h' : x - (⌊x⌋ : ℝ) = 1 / 2 := by
      rw [Int.self_sub_floor]
      exact h
    rw [pyround, if_pos h]
    by_cases he : Even ⌊x⌋
    · rw [if_pos he, abs_le]
      constructor <;> linarith
    · rw [if_neg he, abs_le]
      push_cast
      constructor <;> linarith
  · rw [pyround, if_neg h, abs_sub_comm]
    exact abs_sub_round x

/-- `GRID_SIZE_M = 100.0` from `map_2.py`. -/
noncomputable def GRID_SIZE_M : ℝ := 100

/-- `HALF_M = GRID_SIZE_M / 2.0` from `map_2.py`. -/
noncomputable def HALF_M : ℝ := GRID_SIZE_M / 2

/-- `CELL_SIZE_M = 5.0` from `map_2.py`. -/
noncomputable def CELL_SIZE_M : ℝ := 5

/-- `clamp(v, lo, hi) = max(lo, min(hi, v))` from `map_2.py`. -/
noncomputable def clamp (v lo hi : ℝ) : ℝ := max lo (min hi v)

/-- The inner `snap` closure of `MainWindow.snap_xy`:
`round(v / cell) * cell`, with the cell size lifted to a parameter. -/
noncomputable def snap1 (cell v : ℝ) : ℝ := (pyround (v / cell) : ℝ) * cell

/-- `MainWindow.snap_xy`: snap both coordinates when the snap checkbox is on,
identity otherwise. -/
noncomputable def snap_xy (snapOn : Bool) (cell x y : ℝ) : ℝ × ℝ :=
  if snapOn then (snap1 cell x, snap1 cell y) else (x, y)

/-- `MainWindow.clamp_xy`: clamp both coordinates to the symmetric box, with
the half-extent lifted to a parameter (the source uses `HALF_M`). -/
noncomputable def clamp_xy (half x y : ℝ) : ℝ × ℝ :=
  (clamp x (-half) half, clamp y (-half) half)

/-- The positional state of a `DraggableBase` item: base and offset, in meters. -/
structure Item where
  base_x : ℝ
  base_y : ℝ
  off_x : ℝ
  off_y : ℝ

/-- `MainWindow.final_from_item`: final position is base plus offset. -/
noncomputable def final_from_item (e : Item) : ℝ × ℝ :=
  (e.base_x + e.off_x, e.base_y + e.off_y)

/-- `MainWindow._apply_item_to_scene`: clamp and snap the final position, then
recompute the base from it keeping the offset. -/
noncomputable def apply_item_to_scene (half cell : ℝ) (snapOn : Bool) (e : Item) : Item :=
  let f := final_from_item e
  let c := clamp_xy half f.1 f.2
  let s := snap_xy snapOn cell c.1 c.2
  { e with base_x := s.1 - e.off_x, base_y := s.2 - e.off_y }

/-- `MainWindow.set_item_final`: preserve the offset, adjust the base so that
base plus offset equals the requested final, then apply to the scene. -/
noncomputable def set_item_final (half cell : ℝ) (snapOn : Bool) (e : Item)
    (fx fy : ℝ) : Item :=
  apply_item_to_scene half cell snapOn
    { e with base_x := fx - e.off_x, base_y := fy - e.off_y }

/-- `MainWindow.set_item_offset`: preserve the base, replace the offset, then
apply to the scene. -/
noncomputable def set_item_offset (half cell : ℝ) (snapOn : Bool) (e : Item)
    (ox oy : ℝ) : Item :=
  apply_item_to_scene half cell snapOn { e with off_x := ox, off_y := oy }

/-- One user-visible mutation of an item. -/
inductive Op where
  | setFinal (fx fy : ℝ)
  | setOffset (ox oy : ℝ)

/-- Dispatch one operation. -/
noncomputable def step (half cell : ℝ) (snapOn : Bool) (e : Item) : Op → Item
  | .setFinal fx fy => set_item_final half cell snapOn e fx fy
  | .setOffset ox oy => set_item_offset half cell snapOn e ox oy

/-- Run a sequence of operations from an initial item state. -/
noncomputable def run (half cell : ℝ) (snapOn : Bool) (e0 : Item)
    (ops : List Op) : Item :=
  ops.foldl (step half cell snapOn) e0

/-- The final position an operation requests, before clamping and snapping. -/
noncomputable def opRequested (e : Item) : Op → ℝ × ℝ
  | .setFinal fx fy => (fx, fy)
  | .setOffset ox oy => (e.base_x + ox, e.base_y + oy)

/-- The offset an operation leaves on the item. -/
def opNewOffset (e : Item) : Op → ℝ × ℝ
  | .setFinal _ _ => (e.off_x, e.off_y)
  | .setOffset ox oy => (ox, oy)

/-- Clamp to the box, then snap — the order used by `_apply_item_to_scene`. -/
noncomputable def clampSnap (half cell : ℝ) (snapOn : Bool) (p : ℝ × ℝ) : ℝ × ℝ :=
  snap_xy snapOn cell (clamp_xy half p.1 p.2).1 (clamp_xy half p.1 p.2).2

lemma step_spec (half cell : ℝ) (snapOn : Bool) (e : Item) (op : Op) :
    final_from_item (step half cell snapOn e op)
      = clampSnap half cell snapOn (opRequested e op)
    ∧ (step half cell snapOn e op).off_x = (opNewOffset e op).1
    ∧ (step half cell snapOn e op).off_y = (opNewOffset e op).2 := by
  cases op with
  | setFinal fx fy =>
      refine ⟨?_, rfl, rfl⟩
      simp only [step, set_item_final, apply_item_to_scene, final_from_item,
        clampSnap, clamp_xy, opRequested, sub_add_cancel]
  | setOffset ox oy =>
      refine ⟨?_, rfl, rfl⟩
      simp only [step, set_item_offset, apply_item_to_scene, final_from_item,
        clampSnap, clamp_xy, opRequested, sub_add_cancel]

/-- C1: for every bounds half-extent, cell size and snap flag, after every call
of any `set_final`/`set_offset` sequence the invariant holds — the final
position (base plus offset) equals the clamped-and-snapped requested final, and
the offset is exactly the one preserved (`set_final`) or assigned
(`set_offset`) by the call. -/
theorem offset_invariant (half cell : ℝ) (snapOn : Bool) (e0 : Item)
    (pre : List Op) (op : Op) :
    final_from_item (run half cell snapOn e0 (pre ++ [op]))
      = clampSnap half cell snapOn (opRequested (run half cell snapOn e0 pre) op)
    ∧ (run half cell snapOn e0 (pre ++ [op])).off_x
        = (opNewOffset (run half cell snapOn e0 pre) op).1
    ∧ (run half cell snapOn e0 (pre ++ [op])).off_y
        = (opNewOffset (run half cell snapOn e0 pre) op).2 := by
  have hrun : run half cell snapOn e0 (pre ++ [op])
      = step half cell snapOn (run half cell snapOn e0 pre) op := by
    simp [run, List.foldl_append]
  rw [hrun]
  exact step_spec half cell snapOn (run half cell snapOn e0 pre) op

lemma clamp_eq_hi (v lo hi : ℝ) (hlohi : lo ≤ hi) (h : hi ≤ v) : clamp v lo hi = hi := by
  rw [clamp, min_eq_left h, max_eq_right hlohi]

lemma clamp_eq_lo (v lo hi : ℝ) (hlohi : lo ≤ hi) (h : v ≤ lo) : clamp v lo hi = lo := by
  rw [clamp, min_eq_right (h.trans hlohi), max_eq_left h]

lemma clamp_mem (v lo hi : ℝ) (hlohi : lo ≤ hi) :
    lo ≤ clamp v lo hi ∧ clamp v lo hi ≤ hi :=
  ⟨le_max_left _ _, max_le hlohi (min_le_left _ _)⟩

lemma pyround_le (t : ℝ) (n : ℤ) (h : t ≤ (n : ℝ)) : pyround t ≤ n := by
  have hb := abs_le.mp (abs_pyround_sub_le t)
  have hlt : (pyround t : ℝ) < ((n + 1 : ℤ) : ℝ) := by
    push_cast
    linarith [hb.2]
  exact Int.lt_add_one_iff.mp (by exact_mod_cast hlt)

lemma le_pyround (t : ℝ) (n : ℤ) (h : (n : ℝ) ≤ t) : n ≤ pyround t := by
  have hb := abs_le.mp (abs_pyround_sub_le t)
  have hlt : ((n - 1 : ℤ) : ℝ) < (pyround t : ℝ) := by
    push_cast
    linarith [hb.1]
  have := Int.lt_iff_add_one_le.mp (show (n - 1 : ℤ) < pyround t by exact_mod_cast hlt)
  omega

/-- One coordinate of the clamp-then-snap pipeline at the source's constants. -/
noncomputable def clampSnap1 (snapOn : Bool) (v : ℝ) : ℝ :=
  if snapOn then snap1 CELL_SIZE_M (clamp v (-HALF_M) HALF_M)
  else clamp v (-HALF_M) HALF_M

lemma snap1_boundary_pos : snap1 CELL_SIZE_M HALF_M = HALF_M := by
  have h : HALF_M / CELL_SIZE_M = ((10 : ℤ) : ℝ) := by
    norm_num [HALF_M, GRID_SIZE_M, CELL_SIZE_M]
  rw [snap1, h, pyround_intCast]
  norm_num [HALF_M, GRID_SIZE_M, CELL_SIZE_M]

lemma snap1_boundary_neg : snap1 CELL_SIZE_M (-HALF_M) = -HALF_M := by
  have h : -HALF_M / CELL_SIZE_M = ((-10 : ℤ) : ℝ) := by
    norm_num [HALF_M, GRID_SIZE_M, CELL_SIZE_M]
  rw [snap1, h, pyround_intCast]
  norm_num [HALF_M, GRID_SIZE_M, CELL_SIZE_M]

lemma snap1_mem (v : ℝ) (h1 : -HALF_M ≤ v) (h2 : v ≤ HALF_M) :
    -HALF_M ≤ snap1 CELL_SIZE_M v ∧ snap1 CELL_SIZE_M v ≤ HALF_M := by
  have hcell : (0 : ℝ) < CELL_SIZE_M := by norm_num [CELL_SIZE_M]
  have ht1 : ((-10 : ℤ) : ℝ) ≤ v / CELL_SIZE_M := by
    rw [le_div_iff₀ hcell]
    push_cast
    norm_num [HALF_M, GRID_SIZE_M, CELL_SIZE_M] at h1 ⊢
    linarith
  have ht2 : v / CELL_SIZE_M ≤ ((10 : ℤ) : ℝ) := by
    rw [div_le_iff₀ hcell]
    push_cast
    norm_num [HALF_M, GRID_SIZE_M, CELL_SIZE_M] at h2 ⊢
    linarith
  have hp1 : ((-10 : ℤ) : ℝ) ≤ (pyround (v / CELL_SIZE_M) : ℝ) := by
    exact_mod_cast le_pyround _ _ ht1
  have hp2 : (pyround (v / CELL_SIZE_M) : ℝ) ≤ ((10 : ℤ) : ℝ) := by
    exact_mod_cast pyround_le _ _ ht2
  rw [snap1]
  push_cast at hp1 hp2
  norm_num [HALF_M, GRID_SIZE_M, CELL_SIZE_M] at hp1 hp2 ⊢
  constructor <;> nlinarith

lemma clampSnap1_spec (snapOn : Bool) (v : ℝ) :
    (HALF_M < v → clampSnap1 snapOn v = HALF_M)
    ∧ (v < -HALF_M → clampSnap1 snapOn v = -HALF_M)
    ∧ -HALF_M ≤ clampSnap1 snapOn v ∧ clampSnap1 snapOn v ≤ HALF_M := by
  have hb : -HALF_M ≤ HALF_M := by norm_num [HALF_M, GRID_SIZE_M]
  cases snapOn with
  | false =>
      have hcs : ∀ w : ℝ, clampSnap1 false w = clamp w (-HALF_M) HALF_M := fun w => by
        simp [clampSnap1]
      rw [hcs]
      exact ⟨fun h => clamp_eq_hi v _ _ hb h.le, fun h => clamp_eq_lo v _ _ hb h.le,
        (clamp_mem v _ _ hb).1, (clamp_mem v _ _ hb).2⟩
  | true =>
      have hcs : ∀ w : ℝ, clampSnap1 true w = snap1 CELL_SIZE_M (clamp w (-HALF_M) HALF_M) :=
        fun w => by simp [clampSnap1]
      rw [hcs]
      refine ⟨fun h => ?_, fun h => ?_, ?_, ?_⟩
      · rw [clamp_eq_hi v _ _ hb h.le, snap1_boundary_pos]
      · rw [clamp_eq_lo v _ _ hb h.le, snap1_boundary_neg]
      · exact (snap1_mem _ (clamp_mem v _ _ hb).1 (clamp_mem v _ _ hb).2).1
      · exact (snap1_mem _ (clamp_mem v _ _ hb).1 (clamp_mem v _ _ hb).2).2

/-- C4: `set_item_final` with a requested final position outside the symmetric
±`HALF_M` box yields a final position exactly on the nearest boundary in each
out-of-range coordinate, and never a position outside the box, whether or not
grid snapping is enabled (snap is applied after clamping, and the boundary is a
grid multiple). -/
theorem set_final_clamps_to_boundary (snapOn : Bool) (e : Item) (fx fy : ℝ) :
    (HALF_M < fx →
      (final_from_item (set_item_final HALF_M CELL_SIZE_M snapOn e fx fy)).1 = HALF_M)
    ∧ (fx < -HALF_M →
      (final_from_item (set_item_final HALF_M CELL_SIZE_M snapOn e fx fy)).1 = -HALF_M)
    ∧ -HALF_M ≤ (final_from_item (set_item_final HALF_M CELL_SIZE_M snapOn e fx fy)).1
    ∧ (final_from_item (set_item_final HALF_M CELL_SIZE_M snapOn e fx fy)).1 ≤ HALF_M
    ∧ (HALF_M < fy →
      (final_from_item (set_item_final HALF_M CELL_SIZE_M snapOn e fx fy)).2 = HALF_M)
    ∧ (fy < -HALF_M →
      (final_from_item (set_item_final HALF_M CELL_SIZE_M snapOn e fx fy)).2 = -HALF_M)
    ∧ -HALF_M ≤ (final_from_item (set_item_final HALF_M CELL_SIZE_M snapOn e fx fy)).2
    ∧ (final_from_item (set_item_final HALF_M CELL_SIZE_M snapOn e fx fy)).2 ≤ HALF_M := by
  have h1 : final_from_item (set_item_final HALF_M CELL_SIZE_M snapOn e fx fy)
      = clampSnap HALF_M CELL_SIZE_M snapOn (fx, fy) :=
    (step_spec HALF_M CELL_SIZE_M snapOn e (.setFinal fx fy)).1
  have h2 : clampSnap HALF_M CELL_SIZE_M snapOn (fx, fy)
      = (clampSnap1 snapOn fx, clampSnap1 snapOn fy) := by
    cases snapOn <;> simp [clampSnap, clamp_xy, snap_xy, clampSnap1]
  rw [h1, h2]
  obtain ⟨a1, a2, a3, a4⟩ := clampSnap1_spec snapOn fx
  obtain ⟨b1, b2, b3, b4⟩ := clampSnap1_spec snapOn fy
  exact ⟨a1, a2, a3, a4, b1, b2, b3, b4⟩

/-- C4 witness: with snapping on, a request at (60, -70) lands exactly on the
(50, -50) boundary corner. -/
theorem set_final_clamps_to_boundary_witness :
    HALF_M < 60 ∧ (-70 : ℝ) < -HALF_M
    ∧ (final_from_item (set_item_final HALF_M CELL_SIZE_M true ⟨0, 0, 0, 0⟩ 60 (-70))).1
        = HALF_M
    ∧ (final_from_item (set_item_final HALF_M CELL_SIZE_M true ⟨0, 0, 0, 0⟩ 60 (-70))).2
        = -HALF_M :=
  ⟨by norm_num [HALF_M, GRID_SIZE_M], by norm_num [HALF_M, GRID_SIZE_M],
   (set_final_clamps_to_boundary true ⟨0, 0, 0, 0⟩ 60 (-70)).1
     (by norm_num [HALF_M, GRID_SIZE_M]),
   (set_final_clamps_to_boundary true ⟨0, 0, 0, 0⟩ 60 (-70)).2.2.2.2.2.1
     (by norm_num [HALF_M, GRID_SIZE_M])⟩

end Map2

/-- `math.radians`: degrees to radians. -/
noncomputable def radians (x : ℝ) : ℝ := x * Real.pi / 180

/-- `math.degrees`: radians to degrees. -/
noncomputable def degrees (x : ℝ) : ℝ := x * 180 / Real.pi

/-- `math.atan2(y, x)`: the standard two-argument arctangent (signed zeros of
floats are not modelled; `atan2 0 0 = 0` as in Python). -/
noncomputable def atan2 (y x : ℝ) : ℝ :=
  if 0 < x then Real.arctan (y / x)
  else if x < 0 ∧ 0 ≤ y then Real.arctan (y / x) + Real.pi
  else if x < 0 ∧ y < 0 then Real.arctan (y / x) - Real.pi
  else if x = 0 ∧ 0 < y then Real.pi / 2
  else if x = 0 ∧ y < 0 then -(Real.pi / 2)
  else 0

lemma degrees_radians (x : ℝ) : degrees (radians x) = x := by
  rw [degrees, radians]
  field_simp

lemma atan2_zero_nonneg (x : ℝ) (hx : 0 ≤ x) : atan2 0 x = 0 := by
  rcases hx.lt_or_eq with h | h
  · rw [atan2, if_pos h, zero_div, Real.arctan_zero]
  · rw [atan2, ← h]
    norm_num

lemma atan2_mem (y x : ℝ) : -Real.pi < atan2 y x ∧ atan2 y x ≤ Real.pi := by
  have hπ := Real.pi_pos
  have ha1 := Real.arctan_lt_pi_div_two (y / x)
  have ha2 := Real.neg_pi_div_two_lt_arctan (y / x)
  rw [atan2]
  split_ifs with h1 h2 h3 h4 h5
  · constructor <;> linarith
  · have hyx : y / x ≤ 0 := div_nonpos_of_nonneg_of_nonpos h2.2 h2.1.le
    have : Real.arctan (y / x) ≤ 0 :=
      (Real.arctan_strictMono.monotone hyx).trans_eq Real.arctan_zero
    constructor <;> linarith
  · have hyx : 0 < y / x := div_pos_of_neg_of_neg h3.2 h3.1
    have : 0 < Real.arctan (y / x) := Real.arctan_zero ▸ Real.arctan_strictMono hyx
    constructor <;> linarith
  · constructor <;> linarith
  · constructor <;> linarith
  · constructor <;> linarith

namespace Map2

/-- `meters_per_deg` from `map_2.py`: small-area approximation of meters per
degree of latitude and longitude at the origin latitude. -/
noncomputable def meters_per_deg (origin_lat : ℝ) : ℝ × ℝ :=
  (111320, 111320 * Real.cos (radians origin_lat))

/-- `meters_to_latlon` from `map_2.py`: local meters to lat/lon, with the
longitude division guarded against a zero `m_per_deg_lon`. -/
noncomputable def meters_to_latlon (origin_lat origin_lon east_m north_m : ℝ) : ℝ × ℝ :=
  let m := meters_per_deg origin_lat
  let dlat := north_m / m.1
  let dlon := if m.2 ≠ 0 then east_m / m.2 else 0
  (origin_lat + dlat, origin_lon + dlon)

/-- `latlon_to_meters` from `map_2.py`: lat/lon to local meters. -/
noncomputable def latlon_to_meters (origin_lat origin_lon lat lon : ℝ) : ℝ × ℝ :=
  let m := meters_per_deg origin_lat
  ((lon - origin_lon) * m.2, (lat - origin_lat) * m.1)

end Map2

namespace Map4

/-- `R_EARTH = 6371000.0` from `map_4.py`. -/
noncomputable def R_EARTH : ℝ := 6371000

/-- `get_meters_per_deg` from `map_4.py` (same formula as `Map2.meters_per_deg`). -/
noncomputable def get_meters_per_deg (lat : ℝ) : ℝ × ℝ :=
  (111320, 111320 * Real.cos (radians lat))

open Classical in
/-- `local_xy_to_latlon` from `map_4.py`.  Unlike `Map2.meters_to_latlon`, the
division of `x_m` by `m_lon` is NOT guarded: when `m_lon` is exactly zero the
Python code raises `ZeroDivisionError`, embedded here as `none`.  (The latitude
division is by the constant 111320 and cannot raise.) -/
noncomputable def local_xy_to_latlon (origin_lat origin_lon x_m y_m : ℝ) : Option (ℝ × ℝ) :=
  let m := get_meters_per_deg origin_lat
  if m.2 = 0 then none
  else some (origin_lat + y_m / m.1, origin_lon + x_m / m.2)

open Classical in
/-- `calculate_forward_geodesic` from `map_4.py`: spherical forward geodesic.
Python's `math.asin` raises `ValueError` outside `[-1, 1]`, embedded as the
`none` branch (the argument is in fact always in range — see the totality
theorem). -/
noncomputable def calculate_forward_geodesic (lat1 lon1 bearing distance : ℝ) :
    Option (ℝ × ℝ) :=
  let phi1 := radians lat1
  let lam1 := radians lon1
  let theta := radians bearing
  let delta := distance / R_EARTH
  let s := Real.sin phi1 * Real.cos delta + Real.cos phi1 * Real.sin delta * Real.cos theta
  if 1 < |s| then none
  else
    let phi2 := Real.arcsin s
    let lam2 := lam1 + atan2 (Real.sin theta * Real.sin delta * Real.cos phi1)
        (Real.cos delta - Real.sin phi1 * Real.sin phi2)
    some (degrees phi2, degrees lam2)

end Map4

namespace Map6

/-- `ORIGIN_LAT` from `map_6.py`. -/
noncomputable def ORIGIN_LAT : ℝ := 27.375634

/-- `ORIGIN_LON` from `map_6.py`. -/
noncomputable def ORIGIN_LON : ℝ := -82.452487

/-- `R_EARTH = 6371000.0` from `map_6.py`. -/
noncomputable def R_EARTH : ℝ := 6371000

open Classical in
/-- `meters_to_latlon` from `map_6.py`: fixed-origin version, with the
longitude division NOT guarded (embedded as `none` on a zero divisor, which
in fact cannot happen at this origin). -/
noncomputable def meters_to_latlon (east_m north_m : ℝ) : Option (ℝ × ℝ) :=
  let m_lat : ℝ := 111320
  let m_lon : ℝ := 111320 * Real.cos (radians ORIGIN_LAT)
  if m_lon = 0 then none
  else some (ORIGIN_LAT + north_m / m_lat, ORIGIN_LON + east_m / m_lon)

/-- Python float `%` for a positive modulus: `a - b * floor(a / b)`. -/
noncomputable def pymod (a b : ℝ) : ℝ := a - b * ⌊a / b⌋

open Classical in
/-- `calculate_projection` from `map_6.py`: converts the west-referenced
bearing by `(270 + west_brg) % 360` and applies the same spherical forward
formula as `map_4.py`. -/
noncomputable def calculate_projection (user_lat user_lon west_brg dist : ℝ) :
    Option (ℝ × ℝ) :=
  let true_brg := pymod (270 + west_brg) 360
  let phi1 := radians user_lat
  let lam1 := radians user_lon
  let theta := radians true_brg
  let delta := dist / R_EARTH
  let s := Real.sin phi1 * Real.cos delta + Real.cos phi1 * Real.sin delta * Real.cos theta
  if 1 < |s| then none
  else
    let phi2 := Real.arcsin s
    let lam2 := lam1 + atan2 (Real.sin theta * Real.sin delta * Real.cos phi1)
        (Real.cos delta - Real.sin phi1 * Real.sin phi2)
    some (degrees phi2, degrees lam2)

lemma projection_eq_forward (u v b d : ℝ) :
    calculate_projection u v b d
      = Map4.calculate_forward_geodesic u v (pymod (270 + b) 360) d := rfl

end Map6

/-- C2: converting a point to local meters and back with the same origin, whose
latitude lies strictly between -90 and 90 degrees, recovers the point to within
1e-6 degrees in both coordinates (in fact exactly). -/
theorem geo_local_roundtrip (olat olon lat lon : ℝ) (h1 : -90 < olat) (h2 : olat < 90) :
    |(Map2.meters_to_latlon olat olon (Map2.latlon_to_meters olat olon lat lon).1
        (Map2.latlon_to_meters olat olon lat lon).2).1 - lat| ≤ 1 / 1000000
    ∧ |(Map2.meters_to_latlon olat olon (Map2.latlon_to_meters olat olon lat lon).1
        (Map2.latlon_to_meters olat olon lat lon).2).2 - lon| ≤ 1 / 1000000 := by
  have hπ := Real.pi_pos
  have hcos : 0 < Real.cos (radians olat) := by
    apply Real.cos_pos_of_mem_Ioo
    constructor
    · rw [radians]
      nlinarith [mul_pos (show (0 : ℝ) < olat + 90 by linarith) hπ]
    · rw [radians]
      nlinarith [mul_pos (show (0 : ℝ) < 90 - olat by linarith) hπ]
  have hm2 : (111320 : ℝ) * Real.cos (radians olat) ≠ 0 :=
    (mul_pos (by norm_num) hcos).ne'
  have e1 : (Map2.meters_to_latlon olat olon (Map2.latlon_to_meters olat olon lat lon).1
      (Map2.latlon_to_meters olat olon lat lon).2).1 = lat := by
    simp only [Map2.meters_to_latlon, Map2.latlon_to_meters, Map2.meters_per_deg]
    field_simp
  have e2 : (Map2.meters_to_latlon olat olon (Map2.latlon_to_meters olat olon lat lon).1
      (Map2.latlon_to_meters olat olon lat lon).2).2 = lon := by
    simp only [Map2.meters_to_latlon, Map2.latlon_to_meters, Map2.meters_per_deg,
      if_pos hm2]
    field_simp
  rw [e1, e2]
  norm_num

/-- C2 witness: the round trip at a concrete non-polar origin and point. -/
theorem geo_local_roundtrip_witness :
    (-90 : ℝ) < 27 ∧ (27 : ℝ) < 90
    ∧ (|(Map2.meters_to_latlon 27 5 (Map2.latlon_to_meters 27 5 1 2).1
          (Map2.latlon_to_meters 27 5 1 2).2).1 - 1| ≤ 1 / 1000000
       ∧ |(Map2.meters_to_latlon 27 5 (Map2.latlon_to_meters 27 5 1 2).1
          (Map2.latlon_to_meters 27 5 1 2).2).2 - 2| ≤ 1 / 1000000) :=
  ⟨by norm_num, by norm_num, geo_local_roundtrip 27 5 1 2 (by norm_num) (by norm_num)⟩

/-- C5 counterexample: `map_4.py`'s `local_xy_to_latlon` does not guard the
longitude division — at an origin latitude of 90 the meters-per-degree-of-
longitude factor is zero and the conversion divides by zero instead of
returning the origin longitude. -/
theorem local_xy_to_latlon_pole_div_zero :
    Map4.local_xy_to_latlon 90 7 3 4 = none := by
  have h : Real.cos (radians 90) = 0 := by
    have hr : radians 90 = Real.pi / 2 := by
      rw [radians]
      ring
    rw [hr, Real.cos_pi_div_two]
  simp [Map4.local_xy_to_latlon, Map4.get_meters_per_deg, h]

/-- C5 amended: only `map_2.py`'s `meters_to_latlon` guards the division by
`m_per_deg_lon` — when that factor is zero it returns the origin longitude,
otherwise `origin_lon + east_m / m_per_deg_lon`.  `map_4.py`'s
`local_xy_to_latlon` divides unguarded and fails (division by zero) when the
factor is zero; `map_6.py`'s `meters_to_latlon` is also unguarded but its fixed
origin latitude makes the factor nonzero, so it always returns a result. -/
theorem meters_to_latlon_division_guard (olat olon east north : ℝ) :
    ((Map2.meters_per_deg olat).2 = 0 →
      (Map2.meters_to_latlon olat olon east north).2 = olon
      ∧ Map4.local_xy_to_latlon olat olon east north = none)
    ∧ ((Map2.meters_per_deg olat).2 ≠ 0 →
      (Map2.meters_to_latlon olat olon east north).2
        = olon + east / (Map2.meters_per_deg olat).2
      ∧ Map4.local_xy_to_latlon olat olon east north
        = some (olat + north / 111320, olon + east / (Map2.meters_per_deg olat).2))
    ∧ (∃ r, Map6.meters_to_latlon east north = some r) := by
  refine ⟨fun h => ?_, fun h => ?_, ?_⟩
  · simp only [Map2.meters_per_deg] at h
    constructor
    · simp [Map2.meters_to_latlon, Map2.meters_per_deg, h]
    · simp [Map4.local_xy_to_latlon, Map4.get_meters_per_deg, h]
  · simp only [Map2.meters_per_deg] at h
    constructor
    · simp [Map2.meters_to_latlon, Map2.meters_per_deg, h]
    · simp [Map4.local_xy_to_latlon, Map4.get_meters_per_deg, Map2.meters_per_deg, h]
  · have hπ := Real.pi_pos
    have hcos : 0 < Real.cos (radians Map6.ORIGIN_LAT) := by
      apply Real.cos_pos_of_mem_Ioo
      rw [Map6.ORIGIN_LAT, radians]
      constructor
      · nlinarith [mul_pos (show (0 : ℝ) < 27.375634 + 90 by norm_num) hπ]
      · nlinarith [mul_pos (show (0 : ℝ) < 90 - 27.375634 by norm_num) hπ]
    have hm : (111320 : ℝ) * Real.cos (radians Map6.ORIGIN_LAT) ≠ 0 :=
      (mul_pos (by norm_num) hcos).ne'
    have hsome : Map6.meters_to_latlon east north
        = some (Map6.ORIGIN_LAT + north / 111320,
                Map6.ORIGIN_LON + east / (111320 * Real.cos (radians Map6.ORIGIN_LAT))) := by
      simp only [Map6.meters_to_latlon]
      rw [if_neg hm]
    exact ⟨_, hsome⟩

lemma abs_forward_arg_le_one (p d t : ℝ) :
    |Real.sin p * Real.cos d + Real.cos p * Real.sin d * Real.cos t| ≤ 1 := by
  have h1 := Real.sin_sq_add_cos_sq p
  have h2 := Real.sin_sq_add_cos_sq d
  have h3 : Real.cos t ^ 2 ≤ 1 := Real.cos_sq_le_one t
  have key : (Real.sin p * Real.cos d + Real.cos p * Real.sin d * Real.cos t) ^ 2
      + (Real.sin p * Real.sin d - Real.cos p * Real.cos d * Real.cos t) ^ 2
      + Real.cos p ^ 2 * (1 - Real.cos t ^ 2) = 1 := by
    linear_combination (Real.sin p ^ 2 + Real.cos p ^ 2 * Real.cos t ^ 2) * h2 + h1
  have hsq : (Real.sin p * Real.cos d + Real.cos p * Real.sin d * Real.cos t) ^ 2 ≤ 1 := by
    nlinarith [sq_nonneg (Real.sin p * Real.sin d - Real.cos p * Real.cos d * Real.cos t),
      mul_nonneg (sq_nonneg (Real.cos p)) (sub_nonneg.mpr h3)]
  exact (sq_le_one_iff_abs_le_one _).mp hsq

lemma forward_total (lat lon brg d : ℝ) :
    Map4.calculate_forward_geodesic lat lon brg d
      = some (degrees (Real.arcsin (Real.sin (radians lat) * Real.cos (d / Map4.R_EARTH)
            + Real.cos (radians lat) * Real.sin (d / Map4.R_EARTH) * Real.cos (radians brg))),
          degrees (radians lon
            + atan2 (Real.sin (radians brg) * Real.sin (d / Map4.R_EARTH) * Real.cos (radians lat))
              (Real.cos (d / Map4.R_EARTH) - Real.sin (radians lat)
                * Real.sin (Real.arcsin (Real.sin (radians lat) * Real.cos (d / Map4.R_EARTH)
                  + Real.cos (radians lat) * Real.sin (d / Map4.R_EARTH) * Real.cos (radians brg)))))) := by
  have h := abs_forward_arg_le_one (radians lat) (d / Map4.R_EARTH) (radians brg)
  simp only [Map4.calculate_forward_geodesic]
  rw [if_neg (not_lt.mpr h)]

/-- C6: the forward geodesic is total (the asin argument is always in range),
returns the start point exactly when the distance is zero (for a start latitude
in the GeoPoint range [-90, 90] and any bearing), and treats a negative
distance as projecting in the opposite bearing. -/
theorem forward_geodesic_props (lat lon brg d : ℝ) :
    (∃ p, Map4.calculate_forward_geodesic lat lon brg d = some p)
    ∧ (-90 ≤ lat → lat ≤ 90 →
        Map4.calculate_forward_geodesic lat lon brg 0 = some (lat, lon))
    ∧ Map4.calculate_forward_geodesic lat lon brg (-d)
        = Map4.calculate_forward_geodesic lat lon (brg + 180) d := by
  refine ⟨⟨_, forward_total lat lon brg d⟩, fun hl1 hl2 => ?_, ?_⟩
  · have hπ := Real.pi_pos
    have hb1 : -(Real.pi / 2) ≤ radians lat := by
      rw [radians]
      nlinarith [mul_nonneg (show (0 : ℝ) ≤ lat + 90 by linarith) hπ.le]
    have hb2 : radians lat ≤ Real.pi / 2 := by
      rw [radians]
      nlinarith [mul_nonneg (show (0 : ℝ) ≤ 90 - lat by linarith) hπ.le]
    rw [forward_total]
    rw [show (0 : ℝ) / Map4.R_EARTH = 0 by ring]
    rw [Real.sin_zero, Real.cos_zero]
    rw [show Real.sin (radians lat) * 1 + Real.cos (radians lat) * 0 * Real.cos (radians brg)
        = Real.sin (radians lat) by ring]
    rw [Real.arcsin_sin hb1 hb2]
    rw [show Real.sin (radians brg) * 0 * Real.cos (radians lat) = 0 by ring]
    rw [atan2_zero_nonneg _ (by
      nlinarith [Real.sin_sq_add_cos_sq (radians lat), sq_nonneg (Real.cos (radians lat))])]
    rw [add_zero, degrees_radians, degrees_radians]
  · have hθ : radians (brg + 180) = radians brg + Real.pi := by
      rw [radians, radians]
      ring
    have hδ : -d / Map4.R_EARTH = -(d / Map4.R_EARTH) := by ring
    rw [forward_total, forward_total, hθ, hδ]
    rw [Real.sin_neg, Real.cos_neg, Real.sin_add_pi, Real.cos_add_pi]
    ring_nf

/-- C6 witness: at a concrete start point, bearing and distance — totality, the
zero-distance identity, and the negative-distance symmetry. -/
theorem forward_geodesic_props_witness :
    (-90 : ℝ) ≤ 10 ∧ (10 : ℝ) ≤ 90
    ∧ (∃ p, Map4.calculate_forward_geodesic 10 20 45 100 = some p)
    ∧ Map4.calculate_forward_geodesic 10 20 45 0 = some (10, 20)
    ∧ Map4.calculate_forward_geodesic 10 20 45 (-100)
        = Map4.calculate_forward_geodesic 10 20 (45 + 180) 100 :=
  ⟨by norm_num, by norm_num, (forward_geodesic_props 10 20 45 100).1,
   (forward_geodesic_props 10 20 45 100).2.1 (by norm_num) (by norm_num),
   (forward_geodesic_props 10 20 45 100).2.2⟩

lemma forward_result_bounds (lat lon brg d lat2 lon2 : ℝ)
    (h : Map4.calculate_forward_geodesic lat lon brg d = some (lat2, lon2)) :
    -90 ≤ lat2 ∧ lat2 ≤ 90 ∧ lon - 180 < lon2 ∧ lon2 ≤ lon + 180 := by
  have hπ := Real.pi_pos
  rw [forward_total] at h
  obtain ⟨hlat, hlon⟩ := Prod.mk.injEq .. ▸ Option.some.inj h
  have ha1 := Real.arcsin_le_pi_div_two (Real.sin (radians lat) * Real.cos (d / Map4.R_EARTH)
    + Real.cos (radians lat) * Real.sin (d / Map4.R_EARTH) * Real.cos (radians brg))
  have ha2 := Real.neg_pi_div_two_le_arcsin (Real.sin (radians lat) * Real.cos (d / Map4.R_EARTH)
    + Real.cos (radians lat) * Real.sin (d / Map4.R_EARTH) * Real.cos (radians brg))
  obtain ⟨hb1, hb2⟩ := atan2_mem
    (Real.sin (radians brg) * Real.sin (d / Map4.R_EARTH) * Real.cos (radians lat))
    (Real.cos (d / Map4.R_EARTH) - Real.sin (radians lat)
      * Real.sin (Real.arcsin (Real.sin (radians lat) * Real.cos (d / Map4.R_EARTH)
        + Real.cos (radians lat) * Real.sin (d / Map4.R_EARTH) * Real.cos (radians brg))))
  refine ⟨?_, ?_, ?_, ?_⟩
  · rw [← hlat, degrees, le_div_iff₀ hπ]
    linarith
  · rw [← hlat, degrees, div_le_iff₀ hπ]
    linarith
  · rw [← hlon, degrees, radians, lt_div_iff₀ hπ]
    nlinarith
  · rw [← hlon, degrees, radians, div_le_iff₀ hπ]
    nlinarith

/-- C8 amended: for a start point in the GeoPoint range, the forward geodesic
(both `map_4.py`'s `calculate_forward_geodesic` and `map_6.py`'s
`calculate_projection`) always returns a latitude in [-90, 90], but the
returned longitude is only guaranteed to lie within 180 degrees of the start
longitude (in (lon - 180, lon + 180]); it is not normalized back into
[-180, 180]. -/
theorem forward_geodesic_output_bounds (lat lon brg d lat2 lon2 : ℝ)
    (_hlat1 : -90 ≤ lat) (_hlat2 : lat ≤ 90) (_hlon1 : -180 ≤ lon) (_hlon2 : lon ≤ 180) :
    (Map4.calculate_forward_geodesic lat lon brg d = some (lat2, lon2) →
      -90 ≤ lat2 ∧ lat2 ≤ 90 ∧ lon - 180 < lon2 ∧ lon2 ≤ lon + 180)
    ∧ (Map6.calculate_projection lat lon brg d = some (lat2, lon2) →
      -90 ≤ lat2 ∧ lat2 ≤ 90 ∧ lon - 180 < lon2 ∧ lon2 ≤ lon + 180) := by
  constructor
  · exact forward_result_bounds lat lon brg d lat2 lon2
  · intro h
    rw [Map6.projection_eq_forward] at h
    exact forward_result_bounds lat lon _ d lat2 lon2 h

/-- C8 counterexample: starting at longitude 179 with bearing 90 (east) and a
quarter-circumference distance, the forward geodesic returns longitude 269,
outside the GeoPoint bound of 180. -/
theorem forward_geodesic_longitude_overflow :
    Map4.calculate_forward_geodesic 0 179 90 (6371000 * (Real.pi / 2)) = some (0, 269)
    ∧ ¬((269 : ℝ) ≤ 180) := by
  have hπ := Real.pi_ne_zero
  constructor
  · rw [forward_total]
    have hδ : 6371000 * (Real.pi / 2) / Map4.R_EARTH = Real.pi / 2 := by
      rw [Map4.R_EARTH]
      exact mul_div_cancel_left₀ _ (by norm_num)
    have h0 : radians 0 = 0 := by
      rw [radians]
      ring
    have h90 : radians 90 = Real.pi / 2 := by
      rw [radians]
      ring
    rw [hδ, h0, h90, Real.sin_zero, Real.cos_zero, Real.sin_pi_div_two, Real.cos_pi_div_two]
    have hatan : atan2 1 0 = Real.pi / 2 := by
      rw [atan2, if_neg (lt_irrefl 0), if_neg (by norm_num), if_neg (by norm_num),
        if_pos ⟨rfl, by norm_num⟩]
    simp only [zero_mul, mul_zero, mul_one, one_mul, add_zero, zero_add, sub_zero,
      Real.arcsin_zero, Real.sin_zero]
    rw [hatan]
    have e1 : degrees 0 = 0 := by
      rw [degrees]
      simp
    have e2 : degrees (radians 179 + Real.pi / 2) = 269 := by
      rw [degrees, radians]
      field_simp
      ring
    rw [e1, e2]
  · norm_num

lemma forward_zero_zero : Map4.calculate_forward_geodesic 0 0 0 0 = some (0, 0) := by
  have h0 : radians 0 = 0 := by
    rw [radians]
    ring
  rw [forward_total, h0]
  rw [show (0 : ℝ) / Map4.R_EARTH = 0 by ring]
  rw [Real.sin_zero, Real.cos_zero]
  simp only [mul_one, mul_zero, zero_mul, add_zero, zero_add, one_mul, sub_zero,
    Real.arcsin_zero, Real.sin_zero]
  rw [atan2_zero_nonneg 1 (by norm_num)]
  have e1 : degrees 0 = 0 := by
    rw [degrees]
    simp
  rw [e1]

/-- C8 amended witness: the output bounds at a concrete in-range start point. -/
theorem forward_geodesic_output_bounds_witness :
    (-90 : ℝ) ≤ 0 ∧ (0 : ℝ) ≤ 90 ∧ (-180 : ℝ) ≤ 0 ∧ (0 : ℝ) ≤ 180
    ∧ Map4.calculate_forward_geodesic 0 0 0 0 = some (0, 0)
    ∧ (-90 ≤ (0 : ℝ) ∧ (0 : ℝ) ≤ 90 ∧ (0 : ℝ) - 180 < 0 ∧ (0 : ℝ) ≤ 0 + 180) :=
  ⟨by norm_num, by norm_num, by norm_num, by norm_num, forward_zero_zero,
   (forward_geodesic_output_bounds 0 0 0 0 0 0 (by norm_num) (by norm_num) (by norm_num)
     (by norm_num)).1 forward_zero_zero⟩

/-- C5 amended witness: the guard branches at the pole and at the equator, and
the fixed-origin conversion succeeding. -/
theorem meters_to_latlon_division_guard_witness :
    (Map2.meters_per_deg 90).2 = 0
    ∧ ((Map2.meters_to_latlon 90 7 3 4).2 = 7 ∧ Map4.local_xy_to_latlon 90 7 3 4 = none)
    ∧ (Map2.meters_per_deg 0).2 ≠ 0
    ∧ ((Map2.meters_to_latlon 0 7 3 4).2 = 7 + 3 / (Map2.meters_per_deg 0).2
       ∧ Map4.local_xy_to_latlon 0 7 3 4
         = some (0 + 4 / 111320, 7 + 3 / (Map2.meters_per_deg 0).2))
    ∧ (∃ r, Map6.meters_to_latlon 3 4 = some r) := by
  have h90 : (Map2.meters_per_deg 90).2 = 0 := by
    have hr : radians 90 = Real.pi / 2 := by
      rw [radians]
      ring
    simp [Map2.meters_per_deg, hr, Real.cos_pi_div_two]
  have h0 : (Map2.meters_per_deg 0).2 ≠ 0 := by
    have hr : radians 0 = 0 := by
      rw [radians]
      ring
    simp [Map2.meters_per_deg, hr, Real.cos_zero]
  exact ⟨h90, (meters_to_latlon_division_guard 90 7 3 4).1 h90, h0,
    (meters_to_latlon_division_guard 0 7 3 4).2.1 h0,
    (meters_to_latlon_division_guard 0 7 3 4).2.2⟩

end RB26
